import Mathlib

/-!
Verification of the clustergram trajectory-aggregation pipeline

Shallow embedding of `src/clustergram/clustergram.py` (class `Clustergram`):
the position reducer (`_compute_means_sklearn`, `_compute_pca_means_sklearn`),
the transition aggregation done inside `plot` / `bokeh` (pandas
`groupby(...).count()` over the per-observation position columns), the
stratified decomposition in `plot`, the k=1 handling inside the fit
dispatchers, and the mutable keyword-argument state touched by `plot`,
`bokeh` and `_scipy_hierarchical`.

Numeric data is embedded as `ℚ` (the claims under study are exact equalities
and counting facts, independent of float rounding), a pandas DataFrame of
position columns as an association list `List (Nat × List ℚ)` from k to the
per-observation position series, and Python exceptions as an `Except` value
carrying the exception class.
-/

namespace ClustergramModel

/-- Python exception classes that the modelled code can raise. -/
inductive PyError where
  | valueError
  | attributeError
  | keyError
  | importError
  deriving DecidableEq, Repr

/-! ## Grouping (pandas `groupby(cols).count()` / `value_counts`)

`means.groupby([i, i + 1]).count()` groups the rows of the position frame by
the pair of values in columns `i` and `i+1` and counts the rows of each
group; `value_counts` is the one-column case.  We model it as: list the
distinct keys, and pair each with its number of occurrences. -/

/-- Group a list by value: each distinct element paired with its
multiplicity (pandas `value_counts` / `groupby(key).count()` semantics,
grouping by exact equality of the key). -/
def groupCounts {α : Type} [DecidableEq α] (l : List α) : List (α × Nat) :=
  l.dedup.map fun a => (a, l.count a)

/-- Transition aggregation between adjacent k and k+1
(`means.groupby([i, i + 1]).count()` in `Clustergram.plot` /
`Clustergram.bokeh`): pair each observation's position at k with its
position at k+1 and count each distinct (head, tail) pair. -/
def transitionEdges (heads tails : List ℚ) : List ((ℚ × ℚ) × Nat) :=
  groupCounts (heads.zip tails)

theorem groupCounts_sum_eq_length {α : Type} [DecidableEq α] (l : List α) :
    ((groupCounts l).map (·.2)).sum = l.length := by
  unfold groupCounts
  rw [List.map_map]
  exact List.sum_map_count_dedup_eq_length l

/-- C1: For every adjacent pair (k, k+1), the transition aggregation
(grouping the per-observation position series by the pair of position
values at k and k+1 and counting group sizes) yields edge counts whose sum
over all emitted edges equals N, the total number of observations. -/
theorem transitionEdges_count_sum (heads tails : List ℚ) (N : Nat)
    (hh : heads.length = N) (ht : tails.length = N) :
    ((transitionEdges heads tails).map (·.2)).sum = N := by
  unfold transitionEdges
  rw [groupCounts_sum_eq_length, List.length_zip, hh, ht, Nat.min_self]

theorem transitionEdges_count_sum_witness :
    ([(5 : ℚ), 5, 7].length = 3 ∧ [(1 : ℚ), 2, 1].length = 3) ∧
      ((transitionEdges [(5 : ℚ), 5, 7] [(1 : ℚ), 2, 1]).map (·.2)).sum = 3 :=
  ⟨⟨by decide, by decide⟩,
    transitionEdges_count_sum [(5 : ℚ), 5, 7] [(1 : ℚ), 2, 1] 3
      (by decide) (by decide)⟩

/-! ## Plain-mode position reducer (`Clustergram._compute_means_sklearn`)

```python
for n in self.k_range:
    means = np.mean(self.cluster_centers[n], axis=1)
    self.plot_data[n] = np.take(means, self.labels[n].values)
    self.link[n] = dict(zip(means, range(n)))
```
`np.mean(..., axis=1)` takes the mean of each center row across the D
feature dimensions; `np.take` maps each observation's label to its
cluster's scalar mean. -/

/-- Mean of one center vector across its feature components
(`np.mean(..., axis=1)` applied to one row). -/
def rowMean (v : List ℚ) : ℚ := v.sum / v.length

/-- The per-observation position series at one k in plain mode:
`np.take(np.mean(cluster_centers[n], axis=1), labels[n])`. -/
def computeMeansSklearn (centers : List (List ℚ)) (labels : List Nat) : List ℚ :=
  let means := centers.map rowMean
  labels.map fun l => means.getD l 0

/-- The `position -> cluster index` lookup built alongside the positions
(`self.link[n] = dict(zip(means, range(n)))`; a later duplicate mean wins,
as in Python's `dict`). -/
def linkOfMeans (centers : List (List ℚ)) : List (ℚ × Nat) :=
  (centers.map rowMean).zip (List.range centers.length)

/-- Cluster centers at k = 3 in end-to-end scenario A (`from_centers`
docstring data). -/
def centersK3 : List (List ℚ) := [[-1, -1], [1, 1], [0, 0]]

/-- Labels at k = 3 in end-to-end scenario A. -/
def labelsK3 : List Nat := [0, 2, 1]

/-- C2 fails as stated: with labels `[0,2,1]` and centers
`[[-1,-1],[1,1],[0,0]]`, plain-mode reduction gives observation 1 the
position 0 (the mean of its assigned center `[0,0]`), not 1, and
observation 2 the position 1, not 0. -/
theorem computeMeans_scenarioA_claim_false :
    ¬ ((computeMeansSklearn centersK3 labelsK3).getD 0 0 = -1 ∧
       (computeMeansSklearn centersK3 labelsK3).getD 1 0 = 1 ∧
       (computeMeansSklearn centersK3 labelsK3).getD 2 0 = 0) := by
  norm_num [computeMeansSklearn, rowMean, centersK3, labelsK3]

/-- C2 (amended): plain-mode position reduction at k = 3 on scenario A
yields the per-observation series `[-1, 0, 1]`: observation 0's position is
-1, observation 1's position is 0 and observation 2's position is 1
(`np.take` maps observation i to the mean of the center its label picks). -/
theorem computeMeans_scenarioA :
    computeMeansSklearn centersK3 labelsK3 = [-1, 0, 1] := by
  norm_num [computeMeansSklearn, rowMean, centersK3, labelsK3]

/-! ## Stratified flow decomposition (`Clustergram.plot`, stratify branch)

```python
sub = means.groupby([i, i+1, 'label_strata']).count().iloc[:,0]
        .rename('count_strata').reset_index()
sub = sub.merge(sub.groupby(i).count_strata.sum().rename('count_head'), ...)
        .merge(sub.groupby(i+1).count_strata.sum().rename('count_tail'), ...)
...
frac_strata_in_head = count_strata/count_head
```
An observation row is the triple (position at k, position at k+1, stratum
label); `count_strata` is the size of each distinct triple's group and
`count_head` the sum of `count_strata` over the rows sharing the head
position. -/

/-- One decomposed edge per distinct (head, tail, stratum) triple with its
`count_strata` (the stratified `groupby(...).count()`). -/
def stratEdges (obs : List (ℚ × ℚ × Nat)) : List ((ℚ × ℚ × Nat) × Nat) :=
  groupCounts obs

/-- The `count_head` value for a head position: the sum of `count_strata` over the
rows of `sub` sharing that head (`sub.groupby(i).count_strata.sum()`). -/
def countHead (obs : List (ℚ × ℚ × Nat)) (h : ℚ) : Nat :=
  (((stratEdges obs).filter (fun e => e.1.1 = h)).map (·.2)).sum

theorem sum_map_div {α : Type} (l : List α) (f : α → ℚ) (c : ℚ) :
    (l.map fun x => f x / c).sum = (l.map f).sum / c := by
  induction l with
  | nil => simp
  | cons a t ih => simp [ih, add_div]

theorem countHead_eq_members (obs : List (ℚ × ℚ × Nat)) (h : ℚ) :
    countHead obs h = (obs.filter (fun t => t.1 = h)).length := by
  unfold countHead stratEdges groupCounts
  rw [List.filter_map, List.map_map]
  have hsum := List.sum_map_count_dedup_filter_eq_countP
    (fun (a : ℚ × ℚ × Nat) => decide (a.1 = h)) obs
  rw [List.countP_eq_length_filter] at hsum
  exact hsum

/-- C4: for every fixed head position occurring among the observations, the
sum of `count_strata` over the decomposed edges sharing that head equals
`count_head`, `count_head` equals the number of observations in that head
cluster, and the fractions `count_strata / count_head` over those edges sum
to exactly 1. -/
theorem stratified_head_totals (obs : List (ℚ × ℚ × Nat)) (h : ℚ)
    (hocc : 0 < (obs.filter (fun t => t.1 = h)).length) :
    (((stratEdges obs).filter (fun e => e.1.1 = h)).map (·.2)).sum
        = countHead obs h ∧
    countHead obs h = (obs.filter (fun t => t.1 = h)).length ∧
    (((stratEdges obs).filter (fun e => e.1.1 = h)).map
        (fun e => (e.2 : ℚ) / (countHead obs h : ℚ))).sum = 1 := by
  refine ⟨rfl, countHead_eq_members obs h, ?_⟩
  have hne : ((countHead obs h : ℚ)) ≠ 0 := by
    rw [countHead_eq_members obs h]
    exact_mod_cast (Nat.pos_iff_ne_zero.mp hocc)
  rw [sum_map_div]
  have hcast :
      (((stratEdges obs).filter (fun e => e.1.1 = h)).map
        fun e => ((e.2 : Nat) : ℚ)).sum
      = ((countHead obs h : Nat) : ℚ) := by
    rw [countHead]
    rw [Nat.cast_list_sum, List.map_map]
    rfl
  rw [hcast, div_self hne]

theorem stratified_head_totals_witness :
    0 < (([((1 : ℚ), (2 : ℚ), 0), (1, 3, 0), (1, 2, 1), (4, 2, 0)]).filter
        (fun t => t.1 = 1)).length ∧
    ((((stratEdges [((1 : ℚ), (2 : ℚ), 0), (1, 3, 0), (1, 2, 1), (4, 2, 0)]).filter
        (fun e => e.1.1 = 1)).map (·.2)).sum
      = countHead [((1 : ℚ), (2 : ℚ), 0), (1, 3, 0), (1, 2, 1), (4, 2, 0)] 1 ∧
    countHead [((1 : ℚ), (2 : ℚ), 0), (1, 3, 0), (1, 2, 1), (4, 2, 0)] 1
      = (([((1 : ℚ), (2 : ℚ), 0), (1, 3, 0), (1, 2, 1), (4, 2, 0)]).filter
        (fun t => t.1 = 1)).length ∧
    (((stratEdges [((1 : ℚ), (2 : ℚ), 0), (1, 3, 0), (1, 2, 1), (4, 2, 0)]).filter
        (fun e => e.1.1 = 1)).map
        (fun e => (e.2 : ℚ) /
          (countHead [((1 : ℚ), (2 : ℚ), 0), (1, 3, 0), (1, 2, 1), (4, 2, 0)] 1 : ℚ))).sum
      = 1) :=
  ⟨by decide,
    stratified_head_totals [((1 : ℚ), (2 : ℚ), 0), (1, 3, 0), (1, 2, 1), (4, 2, 0)] 1
      (by decide)⟩

/-! ## PCA fit cache (`Clustergram._compute_pca_means_sklearn`)

```python
n_pca = pca_kwargs["n_components"]
if n_pca > self._n_pca:
    self._n_pca = n_pca
    self.pca = PCA(**pca_kwargs).fit(self.data)
```
`self._n_pca` starts at 0 (`fit` / `from_centers` set `self._n_pca = 0`),
so the cache refits exactly when the requested component count strictly
exceeds the largest count fit so far. -/

/-- One PCA-weighted request against the cache: the updated `_n_pca` and
whether `PCA(...).fit` ran. -/
def pcaRequest (n_pca_state : Nat) (n_components : Nat) : Nat × Bool :=
  if n_components > n_pca_state then (n_components, true) else (n_pca_state, false)

/-- Fit decisions of a sequence of requested component counts, threading
the `_n_pca` state. -/
def pcaFits : Nat → List Nat → List Bool
  | _, [] => []
  | st, n :: rest =>
    let r := pcaRequest st n
    r.2 :: pcaFits r.1 rest

theorem pcaRequest_fst (st n : Nat) : (pcaRequest st n).1 = max st n := by
  simp only [pcaRequest]
  split <;> omega

theorem pcaFits_getD (st : Nat) (reqs : List Nat) (i : Nat) :
    (pcaFits st reqs).getD i false
      = decide ((reqs.take i).foldl max st < reqs.getD i 0) := by
  induction reqs generalizing st i with
  | nil => simp [pcaFits]
  | cons n rest ih =>
    cases i with
    | zero =>
      simp only [pcaFits, List.getD_cons_zero, List.take_zero, List.foldl_nil]
      by_cases h : st < n
      · simp [pcaRequest, h]
      · simp [pcaRequest, h]
    | succ i =>
      simp only [pcaFits, List.getD_cons_succ, List.take_succ_cons,
        List.foldl_cons]
      rw [show (pcaRequest st n).1 = max st n from pcaRequest_fst st n] at *
      exact ih (max st n) i

/-- C3: the PCA transform is (re)fit exactly when the requested component
count strictly exceeds the highest count previously fit (running maximum,
starting from 0); requesting 1 then 3 fits twice, requesting 3 then 1 fits
once (the lower second request reuses the cached basis). -/
theorem pca_refit_monotone_cache :
    (∀ (st : Nat) (reqs : List Nat) (i : Nat),
      (pcaFits st reqs).getD i false
        = decide ((reqs.take i).foldl max st < reqs.getD i 0)) ∧
    pcaFits 0 [1, 3] = [true, true] ∧
    pcaFits 0 [3, 1] = [true, false] ∧
    (pcaFits 0 [1, 3]).count true = 2 ∧
    (pcaFits 0 [3, 1]).count true = 1 :=
  ⟨pcaFits_getD, by decide, by decide, by decide, by decide⟩

/-! ## k = 1 handling in the fit dispatchers

`_kmeans_sklearn` (also used for `minibatchkmeans`):
```python
for n in self.k_range:
    if n == 1:
        self.labels[n] = [0] * len(data)
        self.cluster_centers[n] = np.array([data.mean(axis=0)])
        ...
        continue
    results = KMeans(n_clusters=n, **self.kwargs).fit(data, **kwargs)
```
`_gmm_sklearn` has no such branch: every `n` in `k_range`, including 1,
fits a `GaussianMixture`, and each stored center is the data row of
maximal estimated component density (`centers[i, :] = data[np.argmax(density)]`),
not the feature-wise mean. -/

/-- Labels and centers stored for one k. -/
structure FitResult where
  labels : List Nat
  centers : List (List ℚ)
  deriving DecidableEq, Repr

/-- Feature-wise mean `data.mean(axis=0)`: the feature-wise mean of all observations, one
value per feature dimension. -/
def featureMean (data : List (List ℚ)) (D : Nat) : List ℚ :=
  (List.range D).map fun j => (data.map fun row => row.getD j 0).sum / data.length

/-- The `_kmeans_sklearn` sweep, parameterised over the KMeans or
MiniBatchKMeans collaborator: the per-k stored results, paired with the
list of k values for which the collaborator was invoked (k = 1 is skipped
and filled in directly). -/
def kmeansSklearn (collab : Nat → FitResult) (data : List (List ℚ)) (D : Nat)
    (ks : List Nat) : List (Nat × FitResult) × List Nat :=
  (ks.map fun n =>
      (n, if n = 1 then ⟨List.replicate data.length 0, [featureMean data D]⟩
          else collab n),
    ks.filter fun n => n ≠ 1)

/-- The `_gmm_sklearn` sweep, parameterised over the GaussianMixture
collaborator (predicted labels, and the index of the maximal-density data
row per component): every k in the range, including 1, invokes the
collaborator, and component i's stored center is the data row
`data[np.argmax(density)]`. -/
def gmmSklearn (collabLabels : Nat → List Nat) (argmaxDensity : Nat → Nat → Nat)
    (data : List (List ℚ)) (ks : List Nat) :
    List (Nat × FitResult) × List Nat :=
  (ks.map fun n =>
      (n, ⟨collabLabels n,
           (List.range n).map fun i => data.getD (argmaxDensity n i) []⟩),
    ks)

/-- C5 fails as stated for `method='gmm'`: on data `[[0,0],[3,0],[0,3]]`
with k_range `[1,2,3]`, the GaussianMixture collaborator is invoked at
k = 1, and whichever row the density argmax selects (index 0, 1 or 2), the
stored k = 1 center is a data row, none of which equals the feature-wise
mean `[1, 1]`. -/
theorem gmm_k1_not_skipped :
    1 ∈ (gmmSklearn (fun _ => [0, 0, 0]) (fun _ _ => 0)
        [[0, 0], [3, 0], [0, 3]] [1, 2, 3]).2 ∧
    (gmmSklearn (fun _ => [0, 0, 0]) (fun _ _ => 0)
        [[0, 0], [3, 0], [0, 3]] [1, 2, 3]).1.lookup 1
      = some ⟨[0, 0, 0], [[0, 0]]⟩ ∧
    [[(0 : ℚ), 0], [3, 0], [0, 3]].getD 0 []
        ≠ featureMean [[0, 0], [3, 0], [0, 3]] 2 ∧
    [[(0 : ℚ), 0], [3, 0], [0, 3]].getD 1 []
        ≠ featureMean [[0, 0], [3, 0], [0, 3]] 2 ∧
    [[(0 : ℚ), 0], [3, 0], [0, 3]].getD 2 []
        ≠ featureMean [[0, 0], [3, 0], [0, 3]] 2 := by
  refine ⟨by decide, by decide, ?_, ?_, ?_⟩ <;>
    norm_num [featureMean, List.range_succ]

theorem lookup_map_self {β : Type} (g : Nat → β) (ks : List Nat) (k : Nat)
    (hk : k ∈ ks) : (ks.map fun n => (n, g n)).lookup k = some (g k) := by
  induction ks with
  | nil => cases hk
  | cons a t ih =>
    by_cases h : k = a
    · subst h
      simp [List.lookup]
    · have ht : k ∈ t := by
        rcases List.mem_cons.mp hk with h' | h'
        · exact absurd h' h
        · exact h'
      have hba : (k == a) = false := beq_eq_false_iff_ne.mpr h
      simp only [List.lookup, hba]
      exact ih ht

/-- C5 (amended): for the kmeans and minibatchkmeans paths, the clustering
collaborator is skipped entirely for k = 1: the stored k = 1 entry is label
0 for every observation with the single feature-wise mean center, k = 1 is
absent from the collaborator invocations, and the k = 1 entry is the same
under every collaborator.  (The gmm path fits the collaborator at k = 1
and stores a maximal-density data row instead; the hierarchical path
derives k = 1 from the linkage collaborator.) -/
theorem kmeans_k1_skipped (collab collab' : Nat → FitResult)
    (data : List (List ℚ)) (D : Nat) (ks : List Nat) (hk : 1 ∈ ks) :
    (kmeansSklearn collab data D ks).1.lookup 1
        = some ⟨List.replicate data.length 0, [featureMean data D]⟩ ∧
    1 ∉ (kmeansSklearn collab data D ks).2 ∧
    (kmeansSklearn collab data D ks).1.lookup 1
        = (kmeansSklearn collab' data D ks).1.lookup 1 := by
  have key : ∀ c : Nat → FitResult,
      (kmeansSklearn c data D ks).1.lookup 1
        = some ⟨List.replicate data.length 0, [featureMean data D]⟩ := by
    intro c
    have := lookup_map_self
      (fun n => if n = 1 then
          (⟨List.replicate data.length 0, [featureMean data D]⟩ : FitResult)
        else c n) ks 1 hk
    simpa [kmeansSklearn] using this
  refine ⟨key collab, ?_, (key collab).trans (key collab').symm⟩
  simp [kmeansSklearn, List.mem_filter]

theorem kmeans_k1_skipped_witness :
    1 ∈ [1, 2] ∧
    ((kmeansSklearn (fun _ => ⟨[], []⟩) [[0, 0], [3, 0], [0, 3]] 2 [1, 2]).1.lookup 1
        = some ⟨List.replicate ([[(0 : ℚ), 0], [3, 0], [0, 3]]).length 0,
            [featureMean [[0, 0], [3, 0], [0, 3]] 2]⟩ ∧
      1 ∉ (kmeansSklearn (fun _ => ⟨[], []⟩) [[0, 0], [3, 0], [0, 3]] 2 [1, 2]).2 ∧
      (kmeansSklearn (fun _ => ⟨[], []⟩) [[0, 0], [3, 0], [0, 3]] 2 [1, 2]).1.lookup 1
        = (kmeansSklearn (fun _ => ⟨[0], [[5]]⟩)
            [[0, 0], [3, 0], [0, 3]] 2 [1, 2]).1.lookup 1) :=
  ⟨by decide,
    kmeans_k1_skipped (fun _ => ⟨[], []⟩) (fun _ => ⟨[0], [[5]]⟩)
      [[0, 0], [3, 0], [0, 3]] 2 [1, 2] (by decide)⟩

/-! ## PCA error paths (`_compute_pca_means_sklearn`, `from_centers`)

`from_centers` stores `cgram.data = data` only `if data is not None`, so a
center-only construction leaves the object with no `data` attribute; the
refit branch then evaluates `PCA(**pca_kwargs).fit(self.data)` and the
attribute access itself fails. -/

/-- Modelled from the spec: the PCA collaborator
(`sklearn.decomposition.PCA`, an out-of-scope library), whose fit fails
with a `ValueError` when the requested component count exceeds
`min(n_samples, n_features)` and otherwise succeeds; the fitted basis is
abstracted to its number of axes. -/
def pcaCollabFit (data : List (List ℚ)) (n_components : Nat) :
    Except PyError Nat :=
  if n_components > min data.length (data.getD 0 []).length then
    .error .valueError
  else .ok n_components

/-- The refit step of `_compute_pca_means_sklearn`: when the requested
count exceeds the cached `_n_pca` the code reads `self.data` (an
`AttributeError` if `from_centers` got no data) and calls the PCA
collaborator; otherwise the cached fit is kept. Returns the new `_n_pca`
and the component count of the active fit. -/
def computePcaFit (data : Option (List (List ℚ))) (n_pca_state : Nat)
    (n_components : Nat) : Except PyError (Nat × Nat) :=
  if n_components > n_pca_state then
    match data with
    | none => .error .attributeError
    | some d =>
      match pcaCollabFit d n_components with
      | .error e => .error e
      | .ok basis => .ok (n_components, basis)
  else .ok (n_pca_state, n_pca_state)

/-- C6 fails as stated: a clustergram built by `from_centers` without a
data argument has no `data` attribute, so the first PCA-weighted request
fails with an `AttributeError`, which is not a `ValueError`-class error. -/
theorem pca_no_data_attributeerror :
    computePcaFit none 0 1 = .error .attributeError ∧
    PyError.attributeError ≠ PyError.valueError := by
  constructor
  · rfl
  · decide

/-- C6 (amended): a PCA-weighted request whose component count exceeds the
feature dimensionality fails with a `ValueError` (raised by the PCA
collaborator), while a center-only construction (`from_centers` without
data) fails with an `AttributeError` — not a `ValueError`-class error —
when the raw dataset is first needed. -/
theorem pca_request_errors (data : List (List ℚ)) (D n st : Nat)
    (hD : (data.getD 0 []).length = D) (hn : D < n) (hst : st < n) :
    computePcaFit (some data) st n = .error .valueError ∧
    computePcaFit none 0 n = .error .attributeError := by
  have hright : (data.getD 0 []).length < n := hD ▸ hn
  have hor : data.length < n ∨ (data[0]?.getD []).length < n :=
    Or.inr (by simpa [List.getD_eq_getElem?_getD] using hright)
  constructor
  · simp [computePcaFit, pcaCollabFit, hst, hor]
  · simp [computePcaFit, Nat.lt_of_le_of_lt (Nat.zero_le D) hn]

theorem pca_request_errors_witness :
    (([[(1 : ℚ), 2], [3, 4]].getD 0 []).length = 2 ∧ 2 < 3 ∧ 0 < 3) ∧
    (computePcaFit (some [[(1 : ℚ), 2], [3, 4]]) 0 3 = .error .valueError ∧
      computePcaFit none 0 3 = .error .attributeError) :=
  ⟨⟨by decide, by decide, by decide⟩,
    pca_request_errors [[(1 : ℚ), 2], [3, 4]] 2 3 0 (by decide) (by decide)
      (by decide)⟩

/-! ## The drawing loop of `Clustergram.plot`

```python
for i in k_range:
    ...
    cl = means[i].value_counts()
    ax.scatter([i] * i, [cl.index], cl * ((500 / len(means)) * size), ...)
    with contextlib.suppress(KeyError, ValueError):
        if (i+1>k_range[-1]):
            continue
        sub = means.groupby([i, i + 1]).count().reset_index()
        for r in sub.itertuples():
            ax.plot([i, i + 1], [y_head, y_tail], ...)
```
`means` holds one column per k of the *fitted* `k_range`; a requested `i`
outside it makes `means[i]` raise a pandas `KeyError` (outside the
suppress), while a missing `i + 1` column only aborts the suppressed
transition block. -/

/-- One cluster marker: x = k, y = position, size driven by the member
count. -/
structure Marker where
  k : Nat
  pos : ℚ
  mcount : Nat
  deriving DecidableEq, Repr

/-- One transition line from (k, head position) to (k+1, tail position),
width driven by the transition count. -/
structure TransLine where
  k : Nat
  headPos : ℚ
  tailPos : ℚ
  lcount : Nat
  deriving DecidableEq, Repr

/-- Column access `means[i]` on the position frame: pandas raises a
`KeyError` for a missing column. -/
def colLookup (means : List (Nat × List ℚ)) (i : Nat) :
    Except PyError (List ℚ) :=
  match means.lookup i with
  | none => .error .keyError
  | some col => .ok col

/-- Marker step `cl = means[i].value_counts()` plus the scatter call: one marker per
distinct position value at k = i. -/
def markerStep (means : List (Nat × List ℚ)) (i : Nat) :
    Except PyError (List Marker) :=
  (colLookup means i).map fun col =>
    (groupCounts col).map fun pc => ⟨i, pc.1, pc.2⟩

/-- The transition block for one `i`, wrapped in
`contextlib.suppress(KeyError, ValueError)`: past the last plotted k
nothing is drawn, and a `KeyError`/`ValueError` inside (e.g. the missing
column `i + 1` in `means.groupby([i, i + 1])`) is swallowed, yielding no
lines. -/
def transitionStep (means : List (Nat × List ℚ)) (i kLast : Nat) :
    List TransLine :=
  if kLast < i + 1 then []
  else
    match colLookup means i, colLookup means (i + 1) with
    | .ok hcol, .ok tcol =>
        (transitionEdges hcol tcol).map fun pc => ⟨i, pc.1.1, pc.1.2, pc.2⟩
    | _, _ => []

/-- The body of the `for i in k_range` loop, accumulating markers and
lines; a marker-step error (outside any suppress) aborts the call. -/
def plotGo (means : List (Nat × List ℚ)) (kLast : Nat) :
    List Nat → Except PyError (List Marker × List TransLine)
  | [] => .ok ([], [])
  | i :: rest =>
    match markerStep means i with
    | .error e => .error e
    | .ok ms =>
      let ls := transitionStep means i kLast
      match plotGo means kLast rest with
      | .error e => .error e
      | .ok (ms', ls') => .ok (ms ++ ms', ls ++ ls')

/-- The drawing loop of `Clustergram.plot` over the requested k values
(`k_range[-1]` is the last requested k). -/
def plotRender (means : List (Nat × List ℚ)) (ksub : List Nat) :
    Except PyError (List Marker × List TransLine) :=
  plotGo means (ksub.getLastD 0) ksub

/-- The error component of a render result. -/
def renderErr (r : Except PyError (List Marker × List TransLine)) :
    Option PyError :=
  match r with
  | .error e => some e
  | .ok _ => none

/-- The drawn chart of a successful render result. -/
def renderOk (r : Except PyError (List Marker × List TransLine)) :
    Option (List Marker × List TransLine) :=
  match r with
  | .error _ => none
  | .ok p => some p

theorem plotGo_missing_col (means : List (Nat × List ℚ)) (kLast : Nat)
    (ksub : List Nat) (i : Nat) (hi : i ∈ ksub)
    (hmiss : means.lookup i = none) :
    plotGo means kLast ksub = .error .keyError := by
  induction ksub with
  | nil => cases hi
  | cons a rest ih =>
    by_cases ha : means.lookup a = none
    · simp [plotGo, markerStep, colLookup, ha, Except.map]
    · have hia : i ≠ a := fun h => ha (h ▸ hmiss)
      have hirest : i ∈ rest := by
        rcases List.mem_cons.mp hi with h | h
        · exact absurd h hia
        · exact h
      obtain ⟨col, hcol⟩ := Option.ne_none_iff_exists'.mp ha
      simp [plotGo, markerStep, colLookup, hcol, Except.map, ih hirest]

/-- C7 fails as stated: requesting the k subset `[2, 5]` when only k = 2
and k = 3 were swept makes `means[5]` raise a pandas `KeyError` — the call
does fail rather than draw a wrong chart, but with a `KeyError`, which is
not a `ValueError`-class error. -/
theorem plot_unswept_k_claim_false :
    renderErr (plotRender [(2, [(5 : ℚ), 5, 7]), (3, [1, 2, 3])] [2, 5])
      = some .keyError ∧
    PyError.keyError ≠ PyError.valueError := by
  constructor
  · rfl
  · decide

/-- C7 (amended): for every render call whose requested k subset contains
a value with no column in the fitted position frame, the static renderer
raises a `KeyError` (the pandas missing-column error, outside any
suppression) — it fails rather than silently producing a chart, but the
error is not `ValueError`-class. -/
theorem plot_unswept_k_keyerror (means : List (Nat × List ℚ))
    (ksub : List Nat) (i : Nat) (hi : i ∈ ksub)
    (hmiss : means.lookup i = none) :
    plotRender means ksub = .error .keyError :=
  plotGo_missing_col means (ksub.getLastD 0) ksub i hi hmiss

theorem plot_unswept_k_keyerror_witness :
    (5 ∈ [2, 5] ∧
      ([((2 : Nat), [(5 : ℚ), 5, 7]), (3, [1, 2, 3])]).lookup 5 = none) ∧
    plotRender [(2, [(5 : ℚ), 5, 7]), (3, [1, 2, 3])] [2, 5]
      = .error .keyError :=
  ⟨⟨by decide, by decide⟩,
    plot_unswept_k_keyerror [(2, [(5 : ℚ), 5, 7]), (3, [1, 2, 3])] [2, 5] 5
      (by decide) (by decide)⟩

/-- C10: a `KeyError` inside the transition block is suppressed: whenever
the column k+1 is missing the block yields no lines and no error, and on
the gapped sweep `k_range = [2, 4]` the chart is produced with all cluster
markers but an empty set of transition lines. -/
theorem plot_transition_errors_suppressed :
    (∀ (means : List (Nat × List ℚ)) (i kLast : Nat),
        means.lookup (i + 1) = none → transitionStep means i kLast = []) ∧
    renderOk (plotRender [(2, [(5 : ℚ), 5, 7]), (4, [1, 2, 3])] [2, 4])
      = some ([⟨2, 5, 2⟩, ⟨2, 7, 1⟩, ⟨4, 1, 1⟩, ⟨4, 2, 1⟩, ⟨4, 3, 1⟩], []) := by
  constructor
  · intro means i kLast hmiss
    unfold transitionStep
    split
    · rfl
    · simp [colLookup, hmiss]
  · rfl

theorem plot_transition_errors_suppressed_witness :
    ([((2 : Nat), [(5 : ℚ), 5, 7]), (4, [1, 2, 3])]).lookup 3 = none ∧
    transitionStep [((2 : Nat), [(5 : ℚ), 5, 7]), (4, [1, 2, 3])] 2 4 = [] :=
  ⟨by decide,
    plot_transition_errors_suppressed.1
      [((2 : Nat), [(5 : ℚ), 5, 7]), (4, [1, 2, 3])] 2 4 (by decide)⟩

/-! ## Mutation of `pca_kwargs` by `plot` / `bokeh`

Both renderers begin with `pca_kwargs["n_components"] = pca_component`
(clustergram.py lines 889 and 1170).  `pca_kwargs` is a Python dict passed
by reference, and the parameter default `pca_kwargs={}` is the single dict
object created when the function was defined, shared by every call that
omits the argument.  Python object identity is modelled as a heap indexed
by references. -/

/-- A Python dict, as a key → value association. -/
abbrev PyDict := List (String × Nat)

/-- In-place dict item assignment `d[k] = v`. -/
def dictSet (d : PyDict) (k : String) (v : Nat) : PyDict :=
  (k, v) :: d.filter fun p => ¬ p.1 = k

/-- The Python object heap, restricted to dicts: a reference is an index
and object identity is reference equality. -/
def Heap : Type := Nat → PyDict

/-- Read the dict behind a reference. -/
def heapGet (h : Heap) (r : Nat) : PyDict := h r

/-- Write `d[k] = v` through a reference: only the referenced object
changes. -/
def heapSet (h : Heap) (r : Nat) (k : String) (v : Nat) : Heap :=
  fun r' => if r' = r then dictSet (h r) k v else h r'

/-- The `pca_kwargs["n_components"] = pca_component` prologue shared by
`plot` and `bokeh`: the call resolves its `pca_kwargs` argument to the
caller's reference, or to the one shared default-dict object
(`defaultRef`, allocated once at function definition) when omitted, and
writes through it. Returns the mutated heap and the reference written. -/
def pcaKwargsUpdate (h : Heap) (arg : Option Nat) (defaultRef : Nat)
    (pca_component : Nat) : Heap × Nat :=
  let r := arg.getD defaultRef
  (heapSet h r "n_components" pca_component, r)

/-- C8: passing an explicit `pca_kwargs` dict mutates that caller-owned
object in place — after the call the caller's reference shows
`n_components = pca_component` while every other object is untouched —
and calls that omit the argument all write through the one shared
default-dict reference, so the default object accumulates the mutation
across calls. -/
theorem pca_kwargs_mutated_in_place (h : Heap) (r defaultRef c c' : Nat) :
    (heapGet (pcaKwargsUpdate h (some r) defaultRef c).1 r).lookup
        "n_components" = some c ∧
    (pcaKwargsUpdate h (some r) defaultRef c).2 = r ∧
    (∀ r', r' ≠ r →
      heapGet (pcaKwargsUpdate h (some r) defaultRef c).1 r' = heapGet h r') ∧
    (pcaKwargsUpdate h none defaultRef c).2 = defaultRef ∧
    (pcaKwargsUpdate (pcaKwargsUpdate h none defaultRef c).1 none defaultRef
        c').2 = (pcaKwargsUpdate h none defaultRef c).2 ∧
    (heapGet (pcaKwargsUpdate h none defaultRef c).1 defaultRef).lookup
        "n_components" = some c := by
  refine ⟨?_, rfl, ?_, rfl, rfl, ?_⟩
  · simp [pcaKwargsUpdate, heapSet, heapGet, dictSet, List.lookup]
  · intro r' hne
    simp [pcaKwargsUpdate, heapSet, heapGet, hne]
  · simp [pcaKwargsUpdate, heapSet, heapGet, dictSet, List.lookup]

theorem pca_kwargs_mutated_in_place_witness :
    (heapGet (pcaKwargsUpdate (fun _ => []) (some 2) 0 7).1 2).lookup
        "n_components" = some 7 ∧
    (pcaKwargsUpdate (fun _ => []) (some 2) 0 7).2 = 2 ∧
    heapGet (pcaKwargsUpdate (fun _ => []) (some 2) 0 7).1 5
        = heapGet (fun _ => []) 5 ∧
    (pcaKwargsUpdate (fun _ => []) none 0 7).2 = 0 ∧
    (pcaKwargsUpdate (pcaKwargsUpdate (fun _ => []) none 0 7).1 none 0 9).2
        = (pcaKwargsUpdate (fun _ => []) none 0 7).2 ∧
    (heapGet (pcaKwargsUpdate (fun _ => []) none 0 7).1 0).lookup
        "n_components" = some 7 :=
  have h := pca_kwargs_mutated_in_place (fun _ => []) 2 0 7 9
  ⟨h.1, h.2.1, h.2.2.1 5 (by decide), h.2.2.2.1, h.2.2.2.2.1, h.2.2.2.2.2⟩

/-! ## `linkage` keyword consumed by `_scipy_hierarchical`

```python
method = self.kwargs.pop("linkage", "single")
self.linkage = hierarchy.linkage(data, method=method, **self.kwargs)
```
`self.kwargs` is the keyword-argument bag stored at construction;
`dict.pop` removes the key, so a second `fit` on the same object no longer
finds it and falls back to the default `"single"`. -/

/-- String-valued keyword-argument bag (`self.kwargs`). -/
abbrev StrKwargs := List (String × String)

/-- Pop step `method = self.kwargs.pop("linkage", "single")`: the linkage method
passed to `hierarchy.linkage`, and the mutated bag with the key removed. -/
def hierLinkagePop (kwargs : StrKwargs) : String × StrKwargs :=
  ((kwargs.lookup "linkage").getD "single",
   kwargs.filter fun p => ¬ p.1 = "linkage")

theorem lookup_filter_out (l : StrKwargs) (k : String) :
    (l.filter fun p => ¬ p.1 = k).lookup k = none := by
  induction l with
  | nil => rfl
  | cons a t ih =>
    by_cases h : a.1 = k
    · simpa [List.filter, h] using ih
    · have hba : (k == a.1) = false := beq_eq_false_iff_ne.mpr (Ne.symm h)
      simpa [List.filter, h, List.lookup, hba] using ih

/-- C9: a clustergram constructed with `method='hierarchical'` and a
`linkage` keyword has that entry removed from the stored bag by the first
fit, which uses the supplied method; a second fit on the same object finds
no `linkage` key and uses the default method `'single'`. -/
theorem hier_linkage_popped_on_first_fit (kwargs : StrKwargs) (m : String)
    (hm : kwargs.lookup "linkage" = some m) :
    (hierLinkagePop kwargs).1 = m ∧
    ((hierLinkagePop kwargs).2).lookup "linkage" = none ∧
    (hierLinkagePop (hierLinkagePop kwargs).2).1 = "single" := by
  refine ⟨by simp [hierLinkagePop, hm], lookup_filter_out kwargs "linkage", ?_⟩
  show ((kwargs.filter fun p => ¬ p.1 = "linkage").lookup "linkage").getD
      "single" = "single"
  rw [lookup_filter_out kwargs "linkage"]
  rfl

theorem hier_linkage_popped_on_first_fit_witness :
    ([("linkage", "ward"), ("optimal_ordering", "True")]).lookup "linkage"
        = some "ward" ∧
    ((hierLinkagePop [("linkage", "ward"), ("optimal_ordering", "True")]).1
        = "ward" ∧
      ((hierLinkagePop
          [("linkage", "ward"), ("optimal_ordering", "True")]).2).lookup
        "linkage" = none ∧
      (hierLinkagePop (hierLinkagePop
          [("linkage", "ward"), ("optimal_ordering", "True")]).2).1
        = "single") :=
  ⟨by decide,
    hier_linkage_popped_on_first_fit
      [("linkage", "ward"), ("optimal_ordering", "True")] "ward" (by decide)⟩

end ClustergramModel
